import Mathlib

/-!
Shallow embedding of the bulk migration orchestrator
(bulk-migrate-engines.js) of the entsporter repository: migration
state, the batch scheduler with bounded concurrency, work-set
computation, the unit processor's skip-existing guard, the dry-run
classification, and the CLI action's control flow.

Network and filesystem effects are abstracted at the call boundary:
an engine listing is an Except value (either the full listed
sequence or the error the underlying call raised), the per-engine
export-then-import pipeline is a function from the source engine
name to an optional error message (none = the unit succeeded), and
state persistence is recorded in the run's trace (which states were
written, whether the state file was read) instead of touching a
filesystem.  Everything else is translated line by line from the
source.
-/

namespace Entsporter

/-- An engine reference as returned by the listing endpoint.  Only
the name is used for identity by the orchestrator. -/
structure EngineRef where
  name : String
  deriving Repr, DecidableEq

/-- One entry of the failed list: the engine name together with the
error message of its last failure. -/
structure FailedEntry where
  engine : String
  error : String
  deriving Repr, DecidableEq

/-- The persisted migration state
(completed, failed, skipped, startTime). -/
structure MigrationState where
  completed : List String
  failed : List FailedEntry
  skipped : List String
  startTime : Nat
  deriving Repr, DecidableEq

/-- The fresh state built when resume mode is off or the state file
is unreadable: empty lists and the current time. -/
def freshState (now : Nat) : MigrationState :=
  { completed := [], failed := [], skipped := [], startTime := now }

/-- Engine names occurring in a failed list. -/
def failedNames (fs : List FailedEntry) : List String :=
  fs.map (fun f => f.engine)

/-- Fuel-indexed chunking loop: chunk i of the loop
for (i = 0; i < remaining.length; i += concurrency) is
remaining.slice(i, i + concurrency).  The fuel argument only makes
the recursion structural; chunksOf supplies fuel equal to the list
length, which is enough whenever the chunk size is positive. -/
def chunksOfAux (c : Nat) : Nat → List String → List (List String)
  | 0, _ => []
  | _, [] => []
  | fuel + 1, a :: l => (a :: l).take c :: chunksOfAux c fuel (l.drop (c - 1))

/-- Partition a list into consecutive chunks of size c (the last
chunk may be smaller), as the batch loop of processInParallel
does with its slice(i, i + concurrency) steps. -/
def chunksOf (c : Nat) (l : List String) : List (List String) :=
  chunksOfAux c l.length l

/-- Fold one settled unit result into the state (the loop body at
lines 128-139 of bulk-migrate-engines.js): a success pushes the
engine name onto completed, a failure pushes { engine, error }
onto failed. -/
def applyResult (st : MigrationState) (r : String × Option String) : MigrationState :=
  match r.2 with
  | none => { st with completed := st.completed ++ [r.1] }
  | some err => { st with failed := st.failed ++ [⟨r.1, err⟩] }

/-- One batch: map every engine of the chunk to its settled outcome
(Promise.all over processFn calls, each with status success or
failed), then fold the results into the state in order. -/
def foldBatch (o : String → Option String) (st : MigrationState) (batch : List String) :
    MigrationState :=
  (batch.map (fun e => (e, o e))).foldl applyResult st

/-- The batch loop: process the chunks strictly in order, saving the
state after every chunk.  Returns the final state together with the
list of states passed to saveState, in order. -/
def runBatches (o : String → Option String) (st : MigrationState) :
    List (List String) → MigrationState × List MigrationState
  | [] => (st, [])
  | b :: bs =>
    let st2 := foldBatch o st b
    let r := runBatches o st2 bs
    (r.1, st2 :: r.2)

/-- Folding a flat list of engines one by one into the state; the
batch loop's net effect on the state is foldAll of the
concatenation of its chunks. -/
def foldAll (o : String → Option String) (st : MigrationState) (es : List String) :
    MigrationState :=
  es.foldl (fun s e => applyResult s (e, o e)) st

/-- The observable outcome of processInParallel: the returned state,
the states handed to saveState in order, and the engines dispatched
to processFn in order. -/
structure PIPResult where
  state : MigrationState
  saves : List MigrationState
  dispatched : List String
  deriving Repr, DecidableEq

/-- processInParallel (bulk-migrate-engines.js lines 55-161).  The
loaded argument is the state loadState would return (it is consulted
only when resumeMode is set, exactly as in the source); now is the
clock value used for a fresh state's startTime; o gives each
engine's settled unit outcome. -/
def processInParallel (engines : List EngineRef) (o : String → Option String)
    (concurrency : Nat) (loaded : MigrationState) (now : Nat)
    (resumeMode retryFailedOnly : Bool) : PIPResult :=
  let state := if resumeMode then loaded else freshState now
  let remaining := engines.filter (fun e => !(state.completed.contains e.name))
  if retryFailedOnly then
    let fns := failedNames state.failed
    let remaining2 := remaining.filter (fun e => fns.contains e.name)
    if remaining2.length = 0 then
      { state := state, saves := [], dispatched := [] }
    else
      let state2 := { state with failed := [] }
      let names := remaining2.map (fun e => e.name)
      let r := runBatches o state2 (chunksOf concurrency names)
      { state := r.1, saves := r.2, dispatched := names }
  else
    if remaining.length = 0 then
      { state := state, saves := [], dispatched := [] }
    else
      let names := remaining.map (fun e => e.name)
      let r := runBatches o state (chunksOf concurrency names)
      { state := r.1, saves := r.2, dispatched := names }

/-- The work set processInParallel computes before the batch loop:
candidates not already completed, further restricted to previously
failed names when retryFailedOnly is set. -/
def liveWorkSet (engines : List EngineRef) (state : MigrationState)
    (retryFailedOnly : Bool) : List EngineRef :=
  let remaining := engines.filter (fun e => !(state.completed.contains e.name))
  if retryFailedOnly then
    remaining.filter (fun e => (failedNames state.failed).contains e.name)
  else
    remaining

/-- JS String.prototype.startsWith: prefix test, expressed on the
character lists so that it evaluates by kernel reduction. -/
def strStartsWith (s pre : String) : Bool :=
  pre.toList.isPrefixOf s.toList

/-- Emptiness of a string (JS falsiness of a string value),
expressed on the character list. -/
def strIsEmpty (s : String) : Bool :=
  s.toList.isEmpty

/-- checkTargetEngines (lines 166-181): list the target cluster and
keep the names carrying the target prefix (all names when the
prefix is empty).  A listing error is caught and turned into the
empty set with a warning. -/
def checkTargetEngines (targetListing : Except String (List EngineRef))
    (targetPrefix : String) : List String :=
  match targetListing with
  | Except.ok engines =>
    (engines.map (fun e => e.name)).filter
      (fun name => strIsEmpty targetPrefix || strStartsWith name targetPrefix)
  | Except.error _ => []

/-- JS String.prototype.includes: substring containment, expressed
on the character lists. -/
def strIncludes (s sub : String) : Bool :=
  (List.range (s.toList.length + 1)).any
    (fun i => sub.toList.isPrefixOf (s.toList.drop i))

/-- The filter step of main: with a non-empty (truthy) filter
argument keep the engines whose name contains it, otherwise keep
everything. -/
def filteredEngines (filter : String) (engines : List EngineRef) : List EngineRef :=
  if strIsEmpty filter then engines else engines.filter (fun e => strIncludes e.name filter)

/-- Settled outcome of one processFn call (lines 346-382): when
skip-existing applies to the destination name and force is off, the
unit throws the error SKIPPED before exporting; otherwise the
outcome is that of the export-then-import pipeline, abstracted by
migrate (none = both phases succeeded). -/
def processFnOutcome (skipExisting force : Bool) (targetPrefix : String)
    (existingOnTarget : List String) (migrate : String → Option String)
    (srcName : String) : Option String :=
  if skipExisting && existingOnTarget.contains (targetPrefix ++ srcName) && !force then
    some "SKIPPED"
  else
    migrate srcName

/-- The mutually exclusive dry-run classifications. -/
inductive DryStatus where
  | alreadyCompleted
  | skipNotFailed
  | skipExists
  | retry
  | overwrite
  | fresh
  deriving Repr, DecidableEq

/-- The per-candidate classification of the dry-run branch
(lines 298-326). -/
def dryClassify (retryFailedOnly skipExisting force : Bool) (targetPrefix : String)
    (state : MigrationState) (existingOnTarget : List String) (e : EngineRef) : DryStatus :=
  let dstName := targetPrefix ++ e.name
  let ex := existingOnTarget.contains dstName
  let completedHere := state.completed.contains e.name
  let previouslyFailed := (failedNames state.failed).contains e.name
  if completedHere then DryStatus.alreadyCompleted
  else if retryFailedOnly && !previouslyFailed then DryStatus.skipNotFailed
  else if skipExisting && ex && !force then DryStatus.skipExists
  else if previouslyFailed then DryStatus.retry
  else if ex then DryStatus.overwrite
  else DryStatus.fresh

/-- The shouldProcess flag of the dry-run branch: true exactly for
the classifications retry, overwrite and fresh. -/
def dryShouldProcess (retryFailedOnly skipExisting force : Bool) (targetPrefix : String)
    (state : MigrationState) (existingOnTarget : List String) (e : EngineRef) : Bool :=
  match dryClassify retryFailedOnly skipExisting force targetPrefix state existingOnTarget e with
  | DryStatus.alreadyCompleted => false
  | DryStatus.skipNotFailed => false
  | DryStatus.skipExists => false
  | _ => true

/-- The option flags of the CLI surface that reach the orchestrator
logic (endpoints, keys, paths and cleanup do not affect the
properties modelled here). -/
structure Options where
  targetPrefix : String
  concurrency : Nat
  force : Bool
  resume : Bool
  retryFailedOnly : Bool
  skipExisting : Bool
  dryRun : Bool

/-- The external world a run interacts with: the outcome of listing
the source cluster, the outcome of listing the target cluster, the
state loadState would produce (loadState fails open, so it always
produces a state), the clock, and the settled outcome of each
engine's export-then-import pipeline. -/
structure World where
  sourceListing : Except String (List EngineRef)
  targetListing : Except String (List EngineRef)
  loadedState : MigrationState
  now : Nat
  migrate : String → Option String

/-- Observable trace of one invocation of the CLI action:
configError is the retry-without-resume validation failure, fatal
records an uncaught error reaching the top-level catch (source
listing failure), listedSource / probedTarget record whether those
network listings were attempted, readState whether loadState was
invoked, dispatched the engines handed to processFn in order,
saves the states handed to saveState in order, finalState the state
processInParallel returned (none when it was never reached), and
exitCode the process exit status. -/
structure RunTrace where
  configError : Bool
  fatal : Bool
  listedSource : Bool
  probedTarget : Bool
  readState : Bool
  dispatched : List String
  saves : List MigrationState
  finalState : Option MigrationState
  exitCode : Nat
  deriving Repr, DecidableEq

/-- program.action (lines 207-421): validate the flag combination,
list the source cluster, apply the name filter, probe the target
cluster when skip-existing is on, then either stop (dry run) or run
processInParallel and exit non-zero when the final state holds any
failure.  A source-listing error propagates to the top-level catch
(fatal, exit 1). -/
def programAction (filter : String) (opts : Options) (w : World) : RunTrace :=
  if opts.retryFailedOnly && !opts.resume then
    { configError := true, fatal := false, listedSource := false, probedTarget := false,
      readState := false, dispatched := [], saves := [], finalState := none, exitCode := 1 }
  else
    match w.sourceListing with
    | Except.error _ =>
      { configError := false, fatal := true, listedSource := true, probedTarget := false,
        readState := false, dispatched := [], saves := [], finalState := none, exitCode := 1 }
    | Except.ok engines =>
      if engines.length = 0 then
        { configError := false, fatal := false, listedSource := true, probedTarget := false,
          readState := false, dispatched := [], saves := [], finalState := none, exitCode := 0 }
      else
        let filtered := filteredEngines filter engines
        if filtered.length = 0 then
          { configError := false, fatal := false, listedSource := true, probedTarget := false,
            readState := false, dispatched := [], saves := [], finalState := none, exitCode := 0 }
        else
          let existingOnTarget :=
            if opts.skipExisting then checkTargetEngines w.targetListing opts.targetPrefix
            else []
          if opts.dryRun then
            { configError := false, fatal := false, listedSource := true,
              probedTarget := opts.skipExisting, readState := opts.resume,
              dispatched := [], saves := [], finalState := none, exitCode := 0 }
          else
            let o := processFnOutcome opts.skipExisting opts.force opts.targetPrefix
              existingOnTarget w.migrate
            let r := processInParallel filtered o opts.concurrency w.loadedState w.now
              opts.resume opts.retryFailedOnly
            { configError := false, fatal := false, listedSource := true,
              probedTarget := opts.skipExisting, readState := opts.resume,
              dispatched := r.dispatched, saves := r.saves, finalState := some r.state,
              exitCode := if r.state.failed.length = 0 then 0 else 1 }

/-- The names the dry-run branch classifies as retry, overwrite or
fresh (shouldProcess = true), computed from the same inputs the
live branch would use.  The dry run loads the state only in resume
mode and otherwise classifies against an empty state, exactly as
lines 289-296 do. -/
def dryRunWorkSet (filter : String) (opts : Options) (w : World) : List String :=
  match w.sourceListing with
  | Except.error _ => []
  | Except.ok engines =>
    let filtered := filteredEngines filter engines
    let existingOnTarget :=
      if opts.skipExisting then checkTargetEngines w.targetListing opts.targetPrefix
      else []
    let st := if opts.resume then w.loadedState else freshState 0
    (filtered.filter
      (dryShouldProcess opts.retryFailedOnly opts.skipExisting opts.force opts.targetPrefix
        st existingOnTarget)).map (fun e => e.name)

/-! ### Basic lemmas about the batch scheduler -/

/-- With positive chunk size and enough fuel, concatenating the
chunks gives back the original list. -/
theorem chunksOfAux_join (c : Nat) (hc : 0 < c) :
    ∀ (fuel : Nat) (l : List String), l.length ≤ fuel → (chunksOfAux c fuel l).flatten = l := by
  intro fuel
  induction fuel with
  | zero =>
    intro l hl
    have : l = [] := List.length_eq_zero.mp (Nat.le_zero.mp hl)
    subst this
    simp [chunksOfAux]
  | succ fuel ih =>
    intro l hl
    match l with
    | [] => simp [chunksOfAux]
    | a :: l =>
      have hl2 : l.length ≤ fuel := by
        simp only [List.length_cons] at hl
        omega
      simp only [chunksOfAux, List.flatten_cons]
      rw [ih (l.drop (c - 1)) (by simp only [List.length_drop]; omega)]
      obtain ⟨d, rfl⟩ : ∃ d, c = d + 1 := ⟨c - 1, by omega⟩
      simp [List.take_succ_cons, Nat.add_sub_cancel, List.take_append_drop]

/-- Concatenating the chunks of a positive chunk size gives back the
original list. -/
theorem chunksOf_join (c : Nat) (hc : 0 < c) (l : List String) :
    (chunksOf c l).flatten = l :=
  chunksOfAux_join c hc l.length l (Nat.le_refl _)

/-- Folding one batch is folding its engines one by one. -/
theorem foldBatch_eq_foldAll (o : String → Option String) (st : MigrationState)
    (batch : List String) : foldBatch o st batch = foldAll o st batch := by
  simp [foldBatch, foldAll, List.foldl_map]

/-- The final state of the batch loop is the one-by-one fold of the
concatenation of the chunks. -/
theorem runBatches_fst (o : String → Option String) :
    ∀ (bs : List (List String)) (st : MigrationState),
      (runBatches o st bs).1 = foldAll o st bs.flatten := by
  intro bs
  induction bs with
  | nil => intro st; simp [runBatches, foldAll]
  | cons b bs ih =>
    intro st
    simp only [runBatches, List.flatten_cons, foldBatch_eq_foldAll, ih]
    simp [foldAll, List.foldl_append]

/-- Effect of a whole fold on the completed list: the successful
engines are appended, in order. -/
theorem foldAll_completed (o : String → Option String) (es : List String) :
    ∀ st : MigrationState,
      (foldAll o st es).completed = st.completed ++ es.filter (fun e => (o e).isNone) := by
  induction es with
  | nil => intro st; simp [foldAll]
  | cons e es ih =>
    intro st
    simp only [foldAll] at ih ⊢
    rw [List.foldl_cons, ih]
    cases h : o e <;> simp [applyResult, h, List.filter_cons]

/-- Effect of a whole fold on the failed list: one entry per failing
engine is appended, in order, carrying its error message. -/
theorem foldAll_failed (o : String → Option String) (es : List String) :
    ∀ st : MigrationState,
      (foldAll o st es).failed =
        st.failed ++ es.filterMap
          (fun e => Option.map (fun err => (⟨e, err⟩ : FailedEntry)) (o e)) := by
  induction es with
  | nil => intro st; simp [foldAll]
  | cons e es ih =>
    intro st
    simp only [foldAll] at ih ⊢
    rw [List.foldl_cons, ih]
    cases h : o e <;> simp [applyResult, h, List.filterMap_cons]

/-- The fold never touches the skipped list. -/
theorem foldAll_skipped (o : String → Option String) (es : List String) :
    ∀ st : MigrationState, (foldAll o st es).skipped = st.skipped := by
  induction es with
  | nil => intro st; simp [foldAll]
  | cons e es ih =>
    intro st
    simp only [foldAll] at ih ⊢
    rw [List.foldl_cons, ih]
    cases h : o e <;> simp [applyResult, h]

/-- The fold never touches the start time. -/
theorem foldAll_startTime (o : String → Option String) (es : List String) :
    ∀ st : MigrationState, (foldAll o st es).startTime = st.startTime := by
  induction es with
  | nil => intro st; simp [foldAll]
  | cons e es ih =>
    intro st
    simp only [foldAll] at ih ⊢
    rw [List.foldl_cons, ih]
    cases h : o e <;> simp [applyResult, h]

/-- The engine names of the failure entries produced by a fold are
the engines whose outcome is an error. -/
theorem failedNames_of_outcomes (o : String → Option String) (es : List String) :
    failedNames
        (es.filterMap (fun e => Option.map (fun err => (⟨e, err⟩ : FailedEntry)) (o e)))
      = es.filter (fun e => (o e).isSome) := by
  induction es with
  | nil => simp [failedNames]
  | cons e es ih =>
    simp only [failedNames] at ih ⊢
    cases h : o e <;>
      simp [List.filterMap_cons, h, List.filter_cons, ih]

/-! ### Characterizing processInParallel through the work set -/

/-- processInParallel is the batch loop run on the work set: if the
work set is empty the run returns the entry state with no saves and
no dispatches, otherwise (after clearing failed in retry mode) it
runs the batches over the chunked work-set names. -/
theorem processInParallel_eq (engines : List EngineRef) (o : String → Option String)
    (c : Nat) (loaded : MigrationState) (now : Nat) (resume retry : Bool) :
    processInParallel engines o c loaded now resume retry =
      (let state0 := if resume then loaded else freshState now
       let ws := (liveWorkSet engines state0 retry).map (fun e => e.name)
       if ws.length = 0 then
         { state := state0, saves := [], dispatched := [] }
       else
         let st1 := if retry then { state0 with failed := [] } else state0
         { state := (runBatches o st1 (chunksOf c ws)).1,
           saves := (runBatches o st1 (chunksOf c ws)).2,
           dispatched := ws }) := by
  cases retry <;> cases resume <;>
    simp [processInParallel, liveWorkSet, List.length_map]

/-- The dispatched engines are exactly the names of the work set. -/
theorem processInParallel_dispatched (engines : List EngineRef) (o : String → Option String)
    (c : Nat) (loaded : MigrationState) (now : Nat) (resume retry : Bool) :
    (processInParallel engines o c loaded now resume retry).dispatched =
      (liveWorkSet engines (if resume then loaded else freshState now) retry).map
        (fun e => e.name) := by
  rw [processInParallel_eq]
  by_cases h : liveWorkSet engines (if resume then loaded else freshState now) retry = []
  · simp [h]
  · simp [h, List.length_eq_zero, List.map_eq_nil_iff]

/-- When the work set is empty, the entry state is returned and
nothing is saved or dispatched. -/
theorem processInParallel_of_empty (engines : List EngineRef) (o : String → Option String)
    (c : Nat) (loaded : MigrationState) (now : Nat) (resume retry : Bool)
    (h : liveWorkSet engines (if resume then loaded else freshState now) retry = []) :
    processInParallel engines o c loaded now resume retry =
      { state := if resume then loaded else freshState now, saves := [], dispatched := [] } := by
  rw [processInParallel_eq]
  simp [h]

/-- With a positive concurrency and a non-empty work set, the final
state is the one-by-one fold of the work-set names over the entry
state (with failed cleared first in retry mode). -/
theorem processInParallel_state_of_ne (engines : List EngineRef) (o : String → Option String)
    (c : Nat) (loaded : MigrationState) (now : Nat) (resume retry : Bool) (hc : 0 < c)
    (h : liveWorkSet engines (if resume then loaded else freshState now) retry ≠ []) :
    (processInParallel engines o c loaded now resume retry).state =
      foldAll o
        (if retry then
          { (if resume then loaded else freshState now) with failed := [] }
         else (if resume then loaded else freshState now))
        ((liveWorkSet engines (if resume then loaded else freshState now) retry).map
          (fun e => e.name)) := by
  rw [processInParallel_eq]
  have hlen :
      ¬(((liveWorkSet engines (if resume then loaded else freshState now) retry).map
        (fun e => e.name)).length = 0) := by
    simp [List.length_eq_zero, List.map_eq_nil_iff, h]
  rw [if_neg hlen]
  simp only [runBatches_fst, chunksOf_join c hc]

/-- Everything in the work set comes from the candidate list, is not
already completed, and in retry mode was previously failed. -/
theorem mem_liveWorkSet (engines : List EngineRef) (st : MigrationState) (retry : Bool)
    (e : EngineRef) (he : e ∈ liveWorkSet engines st retry) :
    e ∈ engines ∧ e.name ∉ st.completed ∧ (retry = true → e.name ∈ failedNames st.failed) := by
  cases retry with
  | false =>
    simp only [liveWorkSet] at he
    rw [if_neg (by simp)] at he
    simp only [List.mem_filter] at he
    refine ⟨he.1, ?_, fun h => absurd h (by decide)⟩
    simpa using he.2
  | true =>
    simp only [liveWorkSet, if_true] at he
    simp only [List.mem_filter] at he
    refine ⟨he.1.1, ?_, fun _ => ?_⟩
    · simpa using he.1.2
    · simpa using he.2

/-- The work set is a sublist of the candidate list. -/
theorem liveWorkSet_sublist (engines : List EngineRef) (st : MigrationState) (retry : Bool) :
    List.Sublist (liveWorkSet engines st retry) engines := by
  cases retry with
  | false =>
    simp only [liveWorkSet]
    rw [if_neg (by simp)]
    exact List.filter_sublist engines
  | true =>
    simp only [liveWorkSet, if_true]
    exact (List.filter_sublist _).trans (List.filter_sublist engines)

/-- Everything whose name is in the work set was not completed in
the entry state. -/
theorem mem_workset_names_not_completed (engines : List EngineRef) (st : MigrationState)
    (retry : Bool) (n : String)
    (hn : n ∈ (liveWorkSet engines st retry).map (fun e => e.name)) : n ∉ st.completed := by
  obtain ⟨e, he, rfl⟩ := List.mem_map.mp hn
  exact (mem_liveWorkSet engines st retry e he).2.1

/-- failedNames distributes over list append. -/
theorem failedNames_append (a b : List FailedEntry) :
    failedNames (a ++ b) = failedNames a ++ failedNames b := by
  simp [failedNames]

/-! ### Sample inputs used by concrete theorems -/

/-- A minimal plain run: one source engine, no flags. -/
def sampleOptions : Options :=
  { targetPrefix := "", concurrency := 1, force := false, resume := false,
    retryFailedOnly := false, skipExisting := false, dryRun := false }

/-- A world with a single source engine and a healthy target. -/
def sampleWorld : World :=
  { sourceListing := Except.ok [⟨"parks"⟩], targetListing := Except.ok [],
    loadedState := freshState 0, now := 0, migrate := fun _ => none }

/-- Flags of the skip-existing scenario of the spec: prefix
import-, skipExisting on, force off. -/
def skipOptions : Options :=
  { targetPrefix := "import-", concurrency := 1, force := false, resume := false,
    retryFailedOnly := false, skipExisting := true, dryRun := false }

/-- World of the skip-existing scenario: source has parks, target
already has import-parks, export/import itself would succeed. -/
def skipWorld : World :=
  { sourceListing := Except.ok [⟨"parks"⟩], targetListing := Except.ok [⟨"import-parks"⟩],
    loadedState := freshState 0, now := 0, migrate := fun _ => none }

/-! ### Claims -/

/-- Claim C1, counterexample.  In a plain resume run (resume on,
retryFailedOnly off) whose loaded state records a prior failure for
parks, a successful unit for parks appends it to completed but
leaves the stale entry in failed, so parks is simultaneously in
completed and among the failed names after the batch fold — the
fold does not remove the prior failure entry. -/
theorem resume_success_keeps_stale_failure :
    (processInParallel [⟨"parks"⟩] (fun _ => none) 1 ⟨[], [⟨"parks", "timeout"⟩], [], 7⟩ 0
        true false).state.completed = ["parks"] ∧
    (processInParallel [⟨"parks"⟩] (fun _ => none) 1 ⟨[], [⟨"parks", "timeout"⟩], [], 7⟩ 0
        true false).state.failed = [⟨"parks", "timeout"⟩] ∧
    "parks" ∈ (processInParallel [⟨"parks"⟩] (fun _ => none) 1
        ⟨[], [⟨"parks", "timeout"⟩], [], 7⟩ 0 true false).state.completed ∧
    "parks" ∈ failedNames (processInParallel [⟨"parks"⟩] (fun _ => none) 1
        ⟨[], [⟨"parks", "timeout"⟩], [], 7⟩ 0 true false).state.failed := by
  decide

/-- Claim C3 (code bug).  With skipExisting on, force off and
import-parks already on the target, candidate parks is NOT removed
from the work set: it is dispatched to the unit processor, the unit
throws SKIPPED, the batch fold records it in state.failed, and the
run exits non-zero — while the dry run and the log message both
call this a skip. -/
theorem skip_existing_recorded_as_failure :
    (programAction "" skipOptions skipWorld).dispatched = ["parks"] ∧
    (programAction "" skipOptions skipWorld).finalState =
      some ⟨[], [⟨"parks", "SKIPPED"⟩], [], 0⟩ ∧
    (programAction "" skipOptions skipWorld).exitCode = 1 := by
  decide

/-- Claim C2 (code bug).  On the skip-existing scenario the dry-run
reporter marks parks as skip-exists-on-target, so its
fresh-retry-overwrite set is empty, yet the live orchestrator
dispatches parks to the unit processor: the two work sets
diverge. -/
theorem dry_live_divergence :
    dryRunWorkSet "" skipOptions skipWorld = [] ∧
    dryClassify false true false "import-" (freshState 0) ["import-parks"] ⟨"parks"⟩ =
      DryStatus.skipExists ∧
    (programAction "" skipOptions skipWorld).dispatched = ["parks"] := by
  decide

/-- Claim C4.  Candidates a..e with concurrency 2 and empty initial
state are chunked into the consecutive batches (a,b), (c,d), (e);
the state is saved after every chunk; when only c fails with
timeout, its batch sibling d still completes, the final state has
completed a,b,d,e and failed exactly the c entry, and the exit
status is non-zero. -/
theorem batch_partition_example :
    chunksOf 2 ["a", "b", "c", "d", "e"] = [["a", "b"], ["c", "d"], ["e"]] ∧
    (programAction ""
        { targetPrefix := "", concurrency := 2, force := false, resume := false,
          retryFailedOnly := false, skipExisting := false, dryRun := false }
        { sourceListing := Except.ok [⟨"a"⟩, ⟨"b"⟩, ⟨"c"⟩, ⟨"d"⟩, ⟨"e"⟩],
          targetListing := Except.ok [], loadedState := freshState 0, now := 0,
          migrate := fun n => if n = "c" then some "timeout" else none }).dispatched =
      ["a", "b", "c", "d", "e"] ∧
    (programAction ""
        { targetPrefix := "", concurrency := 2, force := false, resume := false,
          retryFailedOnly := false, skipExisting := false, dryRun := false }
        { sourceListing := Except.ok [⟨"a"⟩, ⟨"b"⟩, ⟨"c"⟩, ⟨"d"⟩, ⟨"e"⟩],
          targetListing := Except.ok [], loadedState := freshState 0, now := 0,
          migrate := fun n => if n = "c" then some "timeout" else none }).saves =
      [⟨["a", "b"], [], [], 0⟩,
       ⟨["a", "b", "d"], [⟨"c", "timeout"⟩], [], 0⟩,
       ⟨["a", "b", "d", "e"], [⟨"c", "timeout"⟩], [], 0⟩] ∧
    (programAction ""
        { targetPrefix := "", concurrency := 2, force := false, resume := false,
          retryFailedOnly := false, skipExisting := false, dryRun := false }
        { sourceListing := Except.ok [⟨"a"⟩, ⟨"b"⟩, ⟨"c"⟩, ⟨"d"⟩, ⟨"e"⟩],
          targetListing := Except.ok [], loadedState := freshState 0, now := 0,
          migrate := fun n => if n = "c" then some "timeout" else none }).finalState =
      some ⟨["a", "b", "d", "e"], [⟨"c", "timeout"⟩], [], 0⟩ ∧
    (programAction ""
        { targetPrefix := "", concurrency := 2, force := false, resume := false,
          retryFailedOnly := false, skipExisting := false, dryRun := false }
        { sourceListing := Except.ok [⟨"a"⟩, ⟨"b"⟩, ⟨"c"⟩, ⟨"d"⟩, ⟨"e"⟩],
          targetListing := Except.ok [], loadedState := freshState 0, now := 0,
          migrate := fun n => if n = "c" then some "timeout" else none }).exitCode = 1 := by
  decide

/-- Claim C5, counterexample.  Retry mode with an empty work set
(the failed engine x is not among the candidates) returns before
clearing state.failed: after the run state.failed still holds x,
although the set of retried engines that failed again is empty. -/
theorem retry_empty_keeps_failed :
    (processInParallel [] (fun _ => none) 1 ⟨[], [⟨"x", "err"⟩], [], 0⟩ 0
        true true).dispatched = [] ∧
    (processInParallel [] (fun _ => none) 1 ⟨[], [⟨"x", "err"⟩], [], 0⟩ 0
        true true).state.failed = [⟨"x", "err"⟩] := by
  decide

/-- Claim C7.  If retryFailedOnly is set without resume, the action
stops at flag validation: nothing is listed on either cluster, the
state file is neither read nor written, no unit is dispatched, no
final state is produced, and the exit status is 1. -/
theorem config_error_halts (filter : String) (opts : Options) (w : World)
    (h1 : opts.retryFailedOnly = true) (h2 : opts.resume = false) :
    (programAction filter opts w).configError = true ∧
    (programAction filter opts w).listedSource = false ∧
    (programAction filter opts w).probedTarget = false ∧
    (programAction filter opts w).readState = false ∧
    (programAction filter opts w).dispatched = [] ∧
    (programAction filter opts w).saves = [] ∧
    (programAction filter opts w).finalState = none ∧
    (programAction filter opts w).exitCode = 1 := by
  simp [programAction, h1, h2]

/-- Witness for config_error_halts at concrete inputs. -/
theorem config_error_halts_witness :
    (programAction "" { sampleOptions with retryFailedOnly := true } sampleWorld).configError
        = true ∧
    (programAction "" { sampleOptions with retryFailedOnly := true } sampleWorld).listedSource
        = false ∧
    (programAction "" { sampleOptions with retryFailedOnly := true } sampleWorld).probedTarget
        = false ∧
    (programAction "" { sampleOptions with retryFailedOnly := true } sampleWorld).readState
        = false ∧
    (programAction "" { sampleOptions with retryFailedOnly := true } sampleWorld).dispatched
        = [] ∧
    (programAction "" { sampleOptions with retryFailedOnly := true } sampleWorld).saves = [] ∧
    (programAction "" { sampleOptions with retryFailedOnly := true } sampleWorld).finalState
        = none ∧
    (programAction "" { sampleOptions with retryFailedOnly := true } sampleWorld).exitCode
        = 1 :=
  config_error_halts "" { sampleOptions with retryFailedOnly := true } sampleWorld rfl rfl

/-- Claim C8, counterexample.  With skipExisting on, a failing
TARGET listing does not abort the run: the probe error is caught,
the existing-set falls back to empty, parks is dispatched and the
run exits 0. -/
theorem target_probe_failure_continues :
    (programAction "" { sampleOptions with skipExisting := true }
        { sampleWorld with targetListing := Except.error "boom" }).dispatched = ["parks"] ∧
    (programAction "" { sampleOptions with skipExisting := true }
        { sampleWorld with targetListing := Except.error "boom" }).exitCode = 0 ∧
    (programAction "" { sampleOptions with skipExisting := true }
        { sampleWorld with targetListing := Except.error "boom" }).fatal = false := by
  decide

/-- Claim C8, amended.  A failing SOURCE listing aborts the run
(nothing dispatched, nothing saved, exit 1); a failing target probe
is caught inside checkTargetEngines, which returns the empty set so
that the run continues as if no engine existed on the target. -/
theorem listing_failure_behavior :
    (∀ (filter : String) (opts : Options) (w : World) (e : String),
      w.sourceListing = Except.error e →
        (programAction filter opts w).dispatched = [] ∧
        (programAction filter opts w).saves = [] ∧
        (programAction filter opts w).finalState = none ∧
        (programAction filter opts w).exitCode = 1) ∧
    (∀ (targetPrefix e : String), checkTargetEngines (Except.error e) targetPrefix = []) := by
  constructor
  · intro filter opts w e hsl
    by_cases hcfg : (opts.retryFailedOnly && !opts.resume) = true
    · simp [programAction, hcfg]
    · simp [programAction, hcfg, hsl]
  · intro targetPrefix e
    rfl

/-- Witness for listing_failure_behavior at concrete inputs. -/
theorem listing_failure_behavior_witness :
    ((programAction "" sampleOptions
        { sampleWorld with sourceListing := Except.error "down" }).dispatched = [] ∧
     (programAction "" sampleOptions
        { sampleWorld with sourceListing := Except.error "down" }).saves = [] ∧
     (programAction "" sampleOptions
        { sampleWorld with sourceListing := Except.error "down" }).finalState = none ∧
     (programAction "" sampleOptions
        { sampleWorld with sourceListing := Except.error "down" }).exitCode = 1) ∧
    checkTargetEngines (Except.error "down") "import-" = [] :=
  ⟨listing_failure_behavior.1 "" sampleOptions
      { sampleWorld with sourceListing := Except.error "down" } "down" rfl,
    listing_failure_behavior.2 "import-" "down"⟩

/-- Claim C9, counterexample.  A plain resume run in which the
previously failed engine parks fails again appends a second failed
entry for parks instead of replacing the first: parks then occurs
twice among the failed names. -/
theorem refailure_appends_duplicate :
    (processInParallel [⟨"parks"⟩] (fun _ => some "again") 1
        ⟨[], [⟨"parks", "old"⟩], [], 0⟩ 0 true false).state.failed =
      [⟨"parks", "old"⟩, ⟨"parks", "again"⟩] ∧
    ¬(failedNames (processInParallel [⟨"parks"⟩] (fun _ => some "again") 1
        ⟨[], [⟨"parks", "old"⟩], [], 0⟩ 0 true false).state.failed).Nodup := by
  decide

/-- Claim C10.  When the computed work set is empty (every filtered
candidate already completed, or retry mode finds no previously
failed candidate), processInParallel returns its entry state before
the batch loop and saveState is never invoked, leaving the state
file unchanged. -/
theorem empty_work_set_preserves_state (engines : List EngineRef) (o : String → Option String)
    (c : Nat) (loaded : MigrationState) (now : Nat) (resume retry : Bool)
    (h : liveWorkSet engines (if resume then loaded else freshState now) retry = []) :
    (processInParallel engines o c loaded now resume retry).saves = [] ∧
    (processInParallel engines o c loaded now resume retry).state =
      (if resume then loaded else freshState now) := by
  rw [processInParallel_of_empty engines o c loaded now resume retry h]
  exact ⟨rfl, rfl⟩

/-- Witness for empty_work_set_preserves_state: a resumed run whose
only candidate is already completed. -/
theorem empty_work_set_preserves_state_witness :
    (processInParallel [⟨"parks"⟩] (fun _ => none) 1 ⟨["parks"], [], [], 3⟩ 0
        true false).saves = [] ∧
    (processInParallel [⟨"parks"⟩] (fun _ => none) 1 ⟨["parks"], [], [], 3⟩ 0
        true false).state =
      (if true then (⟨["parks"], [], [], 3⟩ : MigrationState) else freshState 0) :=
  empty_work_set_preserves_state [⟨"parks"⟩] (fun _ => none) 1 ⟨["parks"], [], [], 3⟩ 0
    true false (by decide)

/-- Claim C1, amended.  The success fold does not touch failed, so
mutual exclusion holds for runs that cannot start with a stale
failure entry for a dispatched engine: in a fresh run (resume off),
and in a retry run that dispatches at least one engine (failed is
cleared before its batches), no engine name ends up both in
completed and among the failed names; in a plain resume run a
success leaves a prior failure entry in place (see the
counterexample). -/
theorem completed_failed_disjoint (engines : List EngineRef) (o : String → Option String)
    (c : Nat) (loaded : MigrationState) (now : Nat) (resume retry : Bool) (hc : 0 < c)
    (hmode : resume = false ∨
      (retry = true ∧ (processInParallel engines o c loaded now resume retry).dispatched ≠ []))
    (n : String)
    (hn : n ∈ (processInParallel engines o c loaded now resume retry).state.completed) :
    n ∉ failedNames (processInParallel engines o c loaded now resume retry).state.failed := by
  by_cases hws : liveWorkSet engines (if resume then loaded else freshState now) retry = []
  · have heq := processInParallel_of_empty engines o c loaded now resume retry hws
    rcases hmode with hres | ⟨_, hdisp⟩
    · rw [heq] at hn ⊢
      rw [hres] at hn
      simp [freshState] at hn
    · exact absurd (by rw [heq]) hdisp
  · have hst := processInParallel_state_of_ne engines o c loaded now resume retry hc hws
    intro hbad
    rw [hst, foldAll_failed, failedNames_append, failedNames_of_outcomes] at hbad
    rw [hst, foldAll_completed] at hn
    have hfail1 : (if retry then
        { (if resume then loaded else freshState now) with failed := [] }
        else (if resume then loaded else freshState now)).failed = [] := by
      rcases hmode with hres | ⟨hretry, _⟩
      · cases retry <;> simp [hres, freshState]
      · simp [hretry]
    have hcomp1 : (if retry then
        { (if resume then loaded else freshState now) with failed := [] }
        else (if resume then loaded else freshState now)).completed =
        (if resume then loaded else freshState now).completed := by
      cases retry <;> rfl
    rw [hfail1] at hbad
    rw [hcomp1] at hn
    simp only [failedNames, List.map_nil, List.nil_append] at hbad
    have hbad2 := List.mem_filter.mp hbad
    rcases List.mem_append.mp hn with hl | hr
    · exact mem_workset_names_not_completed engines
        (if resume then loaded else freshState now) retry n hbad2.1 hl
    · have h1 := (List.mem_filter.mp hr).2
      have h2 := hbad2.2
      cases ho : o n <;> simp [ho] at h1 h2

/-- Witness for completed_failed_disjoint: a fresh run with one
successful engine. -/
theorem completed_failed_disjoint_witness :
    "parks" ∉ failedNames (processInParallel [⟨"parks"⟩] (fun _ => none) 1 (freshState 0) 0
        false false).state.failed :=
  completed_failed_disjoint [⟨"parks"⟩] (fun _ => none) 1 (freshState 0) 0 false false
    (by decide) (Or.inl rfl) "parks" (by decide)

/-- Claim C9, amended.  Failure entries are appended without
deduplication, so at-most-once holds only when no stale entry can
collide with a new one: with pairwise distinct candidate names,
after a fresh run, or after a retry run (whose loaded failed list
is itself duplicate-free), every engine name occurs at most once in
failed; in a plain resume run a re-failure appends a duplicate (see
the counterexample). -/
theorem failed_names_nodup (engines : List EngineRef) (o : String → Option String)
    (c : Nat) (loaded : MigrationState) (now : Nat) (resume retry : Bool) (hc : 0 < c)
    (hnames : (engines.map (fun e => e.name)).Nodup)
    (hmode : resume = false ∨ (retry = true ∧ (failedNames loaded.failed).Nodup)) :
    (failedNames (processInParallel engines o c loaded now resume retry).state.failed).Nodup := by
  by_cases hws : liveWorkSet engines (if resume then loaded else freshState now) retry = []
  · rw [processInParallel_of_empty engines o c loaded now resume retry hws]
    rcases hmode with hres | ⟨_, hload⟩
    · rw [hres]
      simp [freshState, failedNames]
    · cases hre : resume with
      | true => simpa [hre] using hload
      | false => simp [hre, freshState, failedNames]
  · rw [processInParallel_state_of_ne engines o c loaded now resume retry hc hws,
      foldAll_failed, failedNames_append, failedNames_of_outcomes]
    have hfail1 : (if retry then
        { (if resume then loaded else freshState now) with failed := [] }
        else (if resume then loaded else freshState now)).failed = [] := by
      rcases hmode with hres | ⟨hretry, _⟩
      · cases retry <;> simp [hres, freshState]
      · simp [hretry]
    rw [hfail1]
    simp only [failedNames, List.map_nil, List.nil_append]
    have hwsnames : ((liveWorkSet engines (if resume then loaded else freshState now)
        retry).map (fun e => e.name)).Nodup :=
      List.Nodup.sublist ((liveWorkSet_sublist engines _ retry).map (fun e => e.name)) hnames
    exact hwsnames.filter _

/-- Witness for failed_names_nodup: a fresh run whose only engine
fails once. -/
theorem failed_names_nodup_witness :
    (failedNames (processInParallel [⟨"parks"⟩] (fun _ => some "boom") 1 (freshState 0) 0
        false false).state.failed).Nodup :=
  failed_names_nodup [⟨"parks"⟩] (fun _ => some "boom") 1 (freshState 0) 0 false false
    (by decide) (by decide) (Or.inl rfl)

/-- Claim C5, amended.  With resume and retryFailedOnly set, the
work set is exactly the filtered candidates that are not completed
and appear among the failed names.  When that work set is
non-empty, failed is cleared before the batches, so the final
failed list holds precisely the retried engines that failed again;
when it is empty, the function returns early and the loaded state
— its failed list included — comes back unchanged (see the
counterexample for the uncleared early return). -/
theorem retry_mode_spec (engines : List EngineRef) (o : String → Option String)
    (c : Nat) (loaded : MigrationState) (now : Nat) (hc : 0 < c) :
    (processInParallel engines o c loaded now true true).dispatched =
      ((engines.filter (fun e => !(loaded.completed.contains e.name))).filter
        (fun e => (failedNames loaded.failed).contains e.name)).map (fun e => e.name) ∧
    ((processInParallel engines o c loaded now true true).dispatched ≠ [] →
      (processInParallel engines o c loaded now true true).state.failed =
        ((processInParallel engines o c loaded now true true).dispatched).filterMap
          (fun e => Option.map (fun err => (⟨e, err⟩ : FailedEntry)) (o e))) ∧
    ((processInParallel engines o c loaded now true true).dispatched = [] →
      (processInParallel engines o c loaded now true true).state = loaded) := by
  have hdisp := processInParallel_dispatched engines o c loaded now true true
  refine ⟨?_, ?_, ?_⟩
  · rw [hdisp]
    simp [liveWorkSet]
  · intro hne
    have hws : liveWorkSet engines (if true then loaded else freshState now) true ≠ [] := by
      intro hnil
      apply hne
      rw [hdisp, hnil]
      rfl
    rw [processInParallel_state_of_ne engines o c loaded now true true hc hws,
      foldAll_failed, hdisp]
    simp
  · intro hempty
    have hws : liveWorkSet engines (if true then loaded else freshState now) true = [] := by
      rw [hdisp] at hempty
      exact List.map_eq_nil_iff.mp hempty
    rw [processInParallel_of_empty engines o c loaded now true true hws]
    rfl

/-- Witness for retry_mode_spec: one previously failed engine whose
retry succeeds. -/
theorem retry_mode_spec_witness :
    (processInParallel [⟨"parks"⟩] (fun _ => none) 1 ⟨[], [⟨"parks", "old"⟩], [], 5⟩ 0
        true true).dispatched = ["parks"] ∧
    ((processInParallel [⟨"parks"⟩] (fun _ => none) 1 ⟨[], [⟨"parks", "old"⟩], [], 5⟩ 0
        true true).dispatched ≠ [] →
      (processInParallel [⟨"parks"⟩] (fun _ => none) 1 ⟨[], [⟨"parks", "old"⟩], [], 5⟩ 0
        true true).state.failed = []) ∧
    ((processInParallel [⟨"parks"⟩] (fun _ => none) 1 ⟨[], [⟨"parks", "old"⟩], [], 5⟩ 0
        true true).dispatched = [] →
      (processInParallel [⟨"parks"⟩] (fun _ => none) 1 ⟨[], [⟨"parks", "old"⟩], [], 5⟩ 0
        true true).state = ⟨[], [⟨"parks", "old"⟩], [], 5⟩) :=
  retry_mode_spec [⟨"parks"⟩] (fun _ => none) 1 ⟨[], [⟨"parks", "old"⟩], [], 5⟩ 0 (by decide)

/-- Claim C6.  For every run that completes (no fatal source-listing
abort), the exit status is non-zero exactly when retryFailedOnly
was given without resume, or the final state contains a failed
engine; every other completed run exits 0. -/
theorem exit_code_iff (filter : String) (opts : Options) (w : World)
    (h : (programAction filter opts w).fatal = false) :
    ((programAction filter opts w).exitCode ≠ 0 ↔
      (opts.retryFailedOnly = true ∧ opts.resume = false) ∨
      ∃ s, (programAction filter opts w).finalState = some s ∧ s.failed ≠ []) := by
  by_cases hcfg : (opts.retryFailedOnly && !opts.resume) = true
  · have hcfg2 : opts.retryFailedOnly = true ∧ opts.resume = false := by
      simpa [Bool.and_eq_true, Bool.not_eq_true'] using hcfg
    simp [programAction, hcfg, hcfg2]
  · have hcfg2 : ¬(opts.retryFailedOnly = true ∧ opts.resume = false) := by
      intro hc2
      exact hcfg (by simp [hc2.1, hc2.2])
    cases hsl : w.sourceListing with
    | error e =>
      exfalso
      rw [programAction] at h
      simp [hcfg, hsl] at h
    | ok engines =>
      by_cases h0 : engines.length = 0
      · simp [programAction, hcfg, hcfg2, hsl, h0]
      · by_cases h1 : (filteredEngines filter engines).length = 0
        · simp [programAction, hcfg, hcfg2, hsl, h0, h1]
        · by_cases hdry : opts.dryRun = true
          · simp [programAction, hcfg, hcfg2, hsl, h0, h1, hdry]
          · by_cases hfail : (processInParallel (filteredEngines filter engines)
                (processFnOutcome opts.skipExisting opts.force opts.targetPrefix
                  (if opts.skipExisting = true then
                    checkTargetEngines w.targetListing opts.targetPrefix
                  else [])
                  w.migrate)
                opts.concurrency w.loadedState w.now opts.resume
                opts.retryFailedOnly).state.failed = []
            · simp [programAction, hcfg, hcfg2, hsl, h0, h1, hdry, hfail]
            · simp [programAction, hcfg, hcfg2, hsl, h0, h1, hdry, hfail,
                List.length_eq_zero]

/-- Witness for exit_code_iff: the minimal clean run. -/
theorem exit_code_iff_witness :
    ((programAction "" sampleOptions sampleWorld).exitCode ≠ 0 ↔
      (sampleOptions.retryFailedOnly = true ∧ sampleOptions.resume = false) ∨
      ∃ s, (programAction "" sampleOptions sampleWorld).finalState = some s ∧
        s.failed ≠ []) :=
  exit_code_iff "" sampleOptions sampleWorld (by decide)

end Entsporter
